import Mathlib

/-!
Shallow embedding of the career-counselor pipeline found in the repository
(src/Prototype.py and src/app.py): the Pydantic data model, the two
search-tool resolvers, the enrichment loop, and the pipeline control flow.

Conventions used throughout:
* Python values of type `str | None` are embedded as `Option String`
  (`none` = Python `None`).
* A function body wrapped in `try ... except` is embedded as a function
  returning `Except String α`: `Except.ok v` models a normal return of the
  Python value `v`, while `Except.error msg` would model an uncaught
  exception escaping to the caller.  External providers (the YouTube search
  service and the Google web search) are abstract parameters returning
  `Except String (List String)`, where `Except.error` models a raised
  provider exception.
-/

/-- Pydantic model `EmergingRole` (Prototype.py lines 17-20, app.py lines 20-23). -/
structure EmergingRole where
  title : String
  description : String
  required_skills : List String
  deriving DecidableEq, Repr

/-- Pydantic model `DomainAnalysis` (app.py lines 25-29).  The Prototype.py
variant differs only in the two summary fields being single strings rather
than bullet lists; no claim depends on those fields. -/
structure DomainAnalysis where
  domain_overview : List String
  future_outlook_summary : List String
  growth_areas : List String
  emerging_roles : List EmergingRole
  deriving DecidableEq, Repr

/-- Pydantic model `LearningStep` (Prototype.py lines 28-32, app.py lines
31-35).  Note the `type` field is declared as a plain `str`; the three
expected values appear only inside the prose `description` of the field. -/
structure LearningStep where
  step : Int
  title : String
  type : String
  content : String
  deriving DecidableEq, Repr

/-- Pydantic model `LearningPath` (Prototype.py lines 34-35, app.py lines 37-38). -/
structure LearningPath where
  path : List LearningStep
  deriving DecidableEq, Repr

/-! ### JSON-level schema validation

`PydanticOutputParser` parses the raw model response into the Pydantic
model.  We embed the post-JSON-decode validation stage: a decoded JSON
value is checked against the declared field names and primitive types of
the model classes above. -/

/-- A decoded JSON value. -/
inductive JVal where
  | jnull
  | jbool (b : Bool)
  | jnum (n : Int)
  | jstr (s : String)
  | jarr (xs : List JVal)
  | jobj (fields : List (String × JVal))

/-- Look a key up in a decoded JSON object. -/
def jlookup : List (String × JVal) → String → Option JVal
  | [], _ => none
  | (k, v) :: rest, key => if k = key then some v else jlookup rest key

/-- Validation of a required `str` field: present and a JSON string. -/
def parse_str_field : Option JVal → Except String String
  | some (.jstr s) => .ok s
  | some _ => .error "Input should be a valid string"
  | none => .error "Field required"

/-- Validation of a required `int` field: present and a JSON integer. -/
def parse_int_field : Option JVal → Except String Int
  | some (.jnum n) => .ok n
  | some _ => .error "Input should be a valid integer"
  | none => .error "Field required"

/-- Pydantic validation of one `LearningStep` object.  Each declared field
must be present with the declared primitive type; the `type` field is a
plain `str` (the enum values appear only in the field's prose description),
so validation checks only that it is a string. -/
def validate_learning_step (j : JVal) : Except String LearningStep :=
  match j with
  | .jobj fields => do
    let step ← parse_int_field (jlookup fields "step")
    let title ← parse_str_field (jlookup fields "title")
    let ty ← parse_str_field (jlookup fields "type")
    let content ← parse_str_field (jlookup fields "content")
    .ok ⟨step, title, ty, content⟩
  | _ => .error "Input should be a valid dictionary"

/-- Validation of each element of the `path` array in order. -/
def validate_learning_steps : List JVal → Except String (List LearningStep)
  | [] => .ok []
  | j :: rest => do
    let s ← validate_learning_step j
    let ss ← validate_learning_steps rest
    .ok (s :: ss)

/-- Pydantic validation of a `LearningPath` object. -/
def validate_learning_path (j : JVal) : Except String LearningPath :=
  match j with
  | .jobj fields =>
    match jlookup fields "path" with
    | some (.jarr xs) => do
      let ss ← validate_learning_steps xs
      .ok ⟨ss⟩
    | some _ => .error "Input should be a valid list"
    | none => .error "Field required"
  | _ => .error "Input should be a valid dictionary"

/-! ### The two search resolvers, in both source variants -/

/-- The keyword arguments of `self.youtube_service.search().list(...)`
(Prototype.py lines 60-66, app.py lines 61-63). -/
structure YoutubeSearchRequest where
  q : String
  part : String
  maxResults : Int
  type : String
  videoDefinition : String
  deriving DecidableEq, Repr

/-- The arguments of `googlesearch.search(...)` (Prototype.py line 79,
app.py line 77). -/
structure WebSearchRequest where
  q : String
  num_results : Int
  lang : String
  deriving DecidableEq, Repr

/-- Query composition of app.py line 60: `f"{domain} {query} tutorial"`. -/
def app_video_query (query domain : String) : String :=
  domain ++ " " ++ query ++ " tutorial"

/-- The YouTube request built by app.py lines 61-63. -/
def app_youtube_request (query domain : String) : YoutubeSearchRequest :=
  ⟨app_video_query query domain, "snippet", 1, "video", "high"⟩

/-- Query composition of Prototype.py line 61: `f"{query} tutorial"`
(no domain/context). -/
def proto_video_query (query : String) : String :=
  query ++ " tutorial"

/-- The YouTube request built by Prototype.py lines 60-66. -/
def proto_youtube_request (query : String) : YoutubeSearchRequest :=
  ⟨proto_video_query query, "snippet", 1, "video", "high"⟩

/-- The canonical URL built from a result's video id
(Prototype.py line 70, app.py line 66). -/
def youtube_watch_url (videoId : String) : String :=
  "https://www.youtube.com/watch?v=" ++ videoId

/-- app.py `_search_youtube_video` (lines 57-70).  The provider returns the
`items[*].id.videoId` list of the response, or `Except.error` for a raised
provider exception; the `except` clause maps any exception to a normal
return of `None`, and an empty/missing `items` list also returns `None`. -/
def search_youtube_video_app
    (provider : YoutubeSearchRequest → Except String (List String))
    (query domain : String) : Except String (Option String) :=
  match provider (app_youtube_request query domain) with
  | .ok (videoId :: _) => .ok (some (youtube_watch_url videoId))
  | .ok [] => .ok none
  | .error _ => .ok none

/-- Prototype.py `_search_youtube_video` (lines 57-74).  Same request, but
the no-result and error cases return fixed descriptive strings instead of
`None`. -/
def search_youtube_video_proto
    (provider : YoutubeSearchRequest → Except String (List String))
    (query : String) : Except String (Option String) :=
  match provider (proto_youtube_request query) with
  | .ok (videoId :: _) => .ok (some (youtube_watch_url videoId))
  | .ok [] => .ok (some "No relevant video found.")
  | .error _ => .ok (some "Could not fetch video link due to an API error.")

/-- Query composition of app.py line 76: `f"{domain} {query} article tutorial"`. -/
def app_article_query (query domain : String) : String :=
  domain ++ " " ++ query ++ " article tutorial"

/-- The web-search request built by app.py line 77. -/
def app_web_request (query domain : String) : WebSearchRequest :=
  ⟨app_article_query query domain, 1, "en"⟩

/-- Query composition of Prototype.py line 79: `f"{query} article tutorial"`. -/
def proto_article_query (query : String) : String :=
  query ++ " article tutorial"

/-- The web-search request built by Prototype.py line 79. -/
def proto_web_request (query : String) : WebSearchRequest :=
  ⟨proto_article_query query, 1, "en"⟩

/-- app.py `_search_for_article` (lines 72-81): `next(search_results, None)`
is the head of the result list or `None`; exceptions map to `None`. -/
def search_for_article_app
    (provider : WebSearchRequest → Except String (List String))
    (query domain : String) : Except String (Option String) :=
  match provider (app_web_request query domain) with
  | .ok urls => .ok urls.head?
  | .error _ => .ok none

/-- Prototype.py `_search_for_article` (lines 76-84): the `next` default and
the `except` clause return fixed descriptive strings instead of `None`. -/
def search_for_article_proto
    (provider : WebSearchRequest → Except String (List String))
    (query : String) : Except String (Option String) :=
  match provider (proto_web_request query) with
  | .ok urls => .ok (some (urls.headD "No relevant article found."))
  | .error _ => .ok (some "Could not fetch article link due to a search error.")

/-! ### The enrichment loop

Both variants run the same per-step loop (Prototype.py lines 157-163,
app.py lines 206-211): a `video` step's content is replaced by the video
search's result, a `reading` step's content by the web search's result, and
any other step is left untouched.  The loop is parameterized by the two
(already domain-applied) search functions, as in the enrichment tests the
spec describes.  Since assignment may store `None` in `content`, the
post-loop step carries `content : Option String`. -/

/-- A learning step after the enrichment loop ran over it: the `content`
attribute now holds `str | None`. -/
structure EnrichedStep where
  step : Int
  title : String
  type : String
  content : Option String
  deriving DecidableEq, Repr

/-- A record of one invocation of a search tool by the enrichment loop. -/
inductive ResolverCall where
  | video (topic : String)
  | reading (topic : String)
  deriving DecidableEq, Repr

/-- One iteration of the enrichment loop, together with the list of search
invocations it performs (`[]` when the step's type is neither `video` nor
`reading`). -/
def enrich_step_traced (sv sa : String → Option String) (s : LearningStep) :
    EnrichedStep × List ResolverCall :=
  if s.type = "video" then (⟨s.step, s.title, s.type, sv s.content⟩, [.video s.content])
  else if s.type = "reading" then (⟨s.step, s.title, s.type, sa s.content⟩, [.reading s.content])
  else (⟨s.step, s.title, s.type, some s.content⟩, [])

/-- The enrichment loop over a list of steps, in order, with its trace of
search invocations. -/
def enrich_steps_traced (sv sa : String → Option String) :
    List LearningStep → List EnrichedStep × List ResolverCall
  | [] => ([], [])
  | s :: rest =>
    ((enrich_step_traced sv sa s).1 :: (enrich_steps_traced sv sa rest).1,
     (enrich_step_traced sv sa s).2 ++ (enrich_steps_traced sv sa rest).2)

/-- The enriched path produced by the loop. -/
def enrich (sv sa : String → Option String) (p : LearningPath) : List EnrichedStep :=
  (enrich_steps_traced sv sa p.path).1

/-- The search invocations performed while enriching a path. -/
def resolver_calls (sv sa : String → Option String) (p : LearningPath) : List ResolverCall :=
  (enrich_steps_traced sv sa p.path).2

/-- Specification-side description of the search invocation one step is
expected to cause: one video (resp. web) search for a `video`
(resp. `reading`) step, none otherwise.  Used only to state theorems. -/
def step_call (s : LearningStep) : Option ResolverCall :=
  if s.type = "video" then some (.video s.content)
  else if s.type = "reading" then some (.reading s.content)
  else none

/-- Projection of a `LearningStep` to its non-content fields. -/
def step_sig (s : LearningStep) : Int × String × String :=
  (s.step, s.title, s.type)

/-- Projection of an `EnrichedStep` to its non-content fields. -/
def enriched_sig (e : EnrichedStep) : Int × String × String :=
  (e.step, e.title, e.type)

/-! ### The pipeline control flow -/

/-- How a chain invocation fails: a Pydantic `ValidationError` raised by the
output parser, or any other exception. -/
inductive GenError where
  | validation
  | other (msg : String)
  deriving DecidableEq, Repr

/-- The observable outcome of one pipeline run: the distinct informational
message of the empty-roles guard, the user-facing message of the
`except ValidationError` handler, the generic message of the
`except Exception` handler, or the successfully displayed results. -/
inductive Outcome where
  | noRoles (msg : String)
  | validationMessage (msg : String)
  | unexpectedError (msg : String)
  | success (analysis : DomainAnalysis) (steps : List EnrichedStep)
  deriving DecidableEq, Repr

/-- The `except` handlers at the end of the pipeline `try` block
(Prototype.py lines 179-182, app.py lines 221-224): a `ValidationError`
becomes the fixed user-facing message, any other exception the generic
message carrying the exception text. -/
def except_outcome : GenError → Outcome
  | .validation => .validationMessage "🔴 Validation Error: The AI's response did not match the required format. This can happen with very niche domains. Please try a different one."
  | .other msg => .unexpectedError ("🔴 An unexpected error occurred: " ++ msg)

/-- The variables dict `learning_path_chain.invoke({...})` receives
(Prototype.py lines 118-122, app.py lines 103-107). -/
structure PathChainInput where
  domain : String
  key_skills : String
  learning_style : String
  deriving DecidableEq, Repr

/-- Python `", ".join(skills)`. -/
def joinComma (xs : List String) : String :=
  String.intercalate ", " xs

/-- `get_learning_path` (Prototype.py lines 116-122, app.py lines 102-107):
invoke the learning-path chain with the domain, the comma-joined skills and
the learning style. -/
def get_learning_path (chain : PathChainInput → Except GenError LearningPath)
    (domain : String) (skills : List String) (style : String) :
    Except GenError LearningPath :=
  chain ⟨domain, joinComma skills, style⟩

/-- Instrumentation of one pipeline run: the domains passed to the analysis
chain and the `(domain, skills, style)` arguments of each
`get_learning_path` invocation. -/
structure RunTrace where
  analyzeCalls : List String
  buildPathCalls : List (String × List String × String)
  deriving DecidableEq, Repr

/-- The pipeline control flow of one run (Prototype.py lines 142-182,
app.py lines 186-224, fresh-domain case): analyze the domain; stop with the
distinct empty-roles message if `emerging_roles` is empty; otherwise take
the first role's `required_skills`, generate the learning path with them,
and enrich it step by step.  A `GenError` raised by either chain reaches
the surrounding `try` and is mapped by `except_outcome`.  The two search
functions are total (`String → Option String`): the resolvers catch their
providers' exceptions internally. -/
def run_pipeline_app
    (analysisChain : String → Except GenError DomainAnalysis)
    (pathChain : PathChainInput → Except GenError LearningPath)
    (sv sa : String → Option String)
    (domain style : String) : Outcome × RunTrace :=
  match analysisChain domain with
  | .error e => (except_outcome e, ⟨[domain], []⟩)
  | .ok analysis =>
    match analysis.emerging_roles with
    | [] => (.noRoles "No emerging roles were identified. Cannot generate a learning path.", ⟨[domain], []⟩)
    | role :: _ =>
      match get_learning_path pathChain domain role.required_skills style with
      | .error e => (except_outcome e, ⟨[domain], [(domain, role.required_skills, style)]⟩)
      | .ok lp => (.success analysis (enrich sv sa lp), ⟨[domain], [(domain, role.required_skills, style)]⟩)

/-! ### Helper lemmas about the enrichment loop -/

/-- One loop iteration never changes the step number, title or type. -/
theorem enrich_step_traced_sig (sv sa : String → Option String) (s : LearningStep) :
    enriched_sig (enrich_step_traced sv sa s).1 = step_sig s := by
  unfold enrich_step_traced enriched_sig step_sig
  split
  · rfl
  split <;> rfl

/-- The search invocations of one loop iteration are described by `step_call`. -/
theorem enrich_step_traced_calls (sv sa : String → Option String) (s : LearningStep) :
    (enrich_step_traced sv sa s).2 = (step_call s).toList := by
  unfold enrich_step_traced step_call
  split
  · rfl
  split <;> rfl

/-- The enriched list is the pointwise image of the input list. -/
theorem enrich_steps_traced_fst (sv sa : String → Option String)
    (steps : List LearningStep) :
    (enrich_steps_traced sv sa steps).1
      = steps.map fun s => (enrich_step_traced sv sa s).1 := by
  induction steps with
  | nil => rfl
  | cons s rest ih => simp [enrich_steps_traced, ih]

/-- The loop's trace is the concatenation, in path order, of each step's
`step_call` invocation. -/
theorem enrich_steps_traced_snd (sv sa : String → Option String)
    (steps : List LearningStep) :
    (enrich_steps_traced sv sa steps).2 = steps.filterMap step_call := by
  induction steps with
  | nil => rfl
  | cons s rest ih =>
    simp only [enrich_steps_traced, ih, enrich_step_traced_calls,
      List.filterMap_cons]
    cases step_call s <;> simp

/-! ### Claims about the enrichment loop -/

/-- Claim C9: for every LearningPath, enrich preserves the path's structure:
the number of steps and their order are unchanged, and for every step the
step number, title and type fields after enrichment equal their values
before enrichment — only the content field is ever mutated. -/
theorem claim9_enrich_preserves_structure (sv sa : String → Option String)
    (p : LearningPath) :
    (enrich sv sa p).length = p.path.length
    ∧ (enrich sv sa p).map enriched_sig = p.path.map step_sig := by
  constructor
  · simp [enrich, enrich_steps_traced_fst]
  · rw [enrich, enrich_steps_traced_fst, List.map_map]
    have h : (enriched_sig ∘ fun s => (enrich_step_traced sv sa s).1) = step_sig :=
      funext fun s => enrich_step_traced_sig sv sa s
    rw [h]

/-- Claim C3: for every LearningPath passed to enrich, no step whose type is
project ever causes a resolver call (neither the video search nor the web
search is invoked for it), and such a step's content field after enrichment
equals its content before enrichment.  The trace of the whole loop is
exactly one search call per video/reading step, in order. -/
theorem claim3_project_steps_untouched (sv sa : String → Option String)
    (p : LearningPath) :
    (∀ s ∈ p.path, s.type = "project" →
      enrich_step_traced sv sa s = (⟨s.step, s.title, s.type, some s.content⟩, []))
    ∧ resolver_calls sv sa p = p.path.filterMap step_call := by
  constructor
  · intro s _ h
    simp [enrich_step_traced, h]
  · rw [resolver_calls, enrich_steps_traced_snd]

/-- Witness for claim C3 at a concrete project step. -/
theorem claim3_witness :
    enrich_step_traced (fun _ => some "u") (fun _ => some "v")
        ⟨3, "Capstone", "project", "Build a dashboard"⟩
      = (⟨3, "Capstone", "project", some "Build a dashboard"⟩, []) :=
  (claim3_project_steps_untouched (fun _ => some "u") (fun _ => some "v")
      ⟨[⟨3, "Capstone", "project", "Build a dashboard"⟩]⟩).1
    ⟨3, "Capstone", "project", "Build a dashboard"⟩ (by decide) rfl

/-- Claim C2: for every LearningPath, if the resolver returns None on every
call, then enrich produces a path in which the content of every step whose
type is video or reading equals the failure sentinel (`None`), and the
content of every step whose type is project equals its input content
unchanged. -/
theorem claim2_sentinel_propagation (sv sa : String → Option String)
    (hsv : ∀ x, sv x = none) (hsa : ∀ x, sa x = none) (p : LearningPath) :
    ∀ pr ∈ p.path.zip (enrich sv sa p),
      ((pr.1.type = "video" ∨ pr.1.type = "reading") → pr.2.content = none)
      ∧ (pr.1.type = "project" → pr.2.content = some pr.1.content) := by
  intro pr hpr
  rw [enrich, enrich_steps_traced_fst] at hpr
  have hz : p.path.zip (p.path.map fun s => (enrich_step_traced sv sa s).1)
      = p.path.map fun s => (s, (enrich_step_traced sv sa s).1) := by
    have h := List.zip_map' id (fun s => (enrich_step_traced sv sa s).1) p.path
    simpa using h
  rw [hz] at hpr
  obtain ⟨s, _, rfl⟩ := List.mem_map.mp hpr
  constructor
  · rintro (h | h) <;>
    · have h2 : s.type = _ := h
      simp [enrich_step_traced, h2, hsv, hsa]
  · intro h
    have h2 : s.type = "project" := h
    simp [enrich_step_traced, h2]

/-- Witness for claim C2: a concrete one-step path under the always-`None`
resolver, with the video step's enriched content evaluated to the sentinel. -/
theorem claim2_witness :
    enrich (fun _ => none) (fun _ => none) ⟨[⟨1, "Intro", "video", "solar basics"⟩]⟩
      = [⟨1, "Intro", "video", none⟩]
    ∧ (⟨1, "Intro", "video", none⟩ : EnrichedStep).content = none := by
  refine ⟨by decide, ?_⟩
  exact (claim2_sentinel_propagation (fun _ => none) (fun _ => none)
      (fun _ => rfl) (fun _ => rfl) ⟨[⟨1, "Intro", "video", "solar basics"⟩]⟩
      (⟨1, "Intro", "video", "solar basics"⟩, ⟨1, "Intro", "video", none⟩)
      (by decide)).1 (Or.inl rfl)

/-! ### Claims about the pipeline control flow -/

/-- Claim C4: for every pipeline run in which the generated DomainAnalysis
has an empty emerging_roles sequence, the pipeline stops in the NO_ROLES
terminal state: the learning-path generation is never invoked, no
resolution occurs, and the caller receives a distinct informational outcome
(its own constructor, unequal to success and to both error outcomes). -/
theorem claim4_empty_roles_halts
    (analysisChain : String → Except GenError DomainAnalysis)
    (pathChain : PathChainInput → Except GenError LearningPath)
    (sv sa : String → Option String) (domain style : String)
    (analysis : DomainAnalysis)
    (h1 : analysisChain domain = .ok analysis)
    (h2 : analysis.emerging_roles = []) :
    run_pipeline_app analysisChain pathChain sv sa domain style
      = (.noRoles "No emerging roles were identified. Cannot generate a learning path.",
         ⟨[domain], []⟩)
    ∧ (∀ m a st, Outcome.noRoles m ≠ Outcome.success a st)
    ∧ (∀ m m2, Outcome.noRoles m ≠ Outcome.validationMessage m2)
    ∧ (∀ m m2, Outcome.noRoles m ≠ Outcome.unexpectedError m2) := by
  refine ⟨?_, ?_, ?_, ?_⟩
  · simp [run_pipeline_app, h1, h2]
  · intro m a st h
    exact Outcome.noConfusion h
  · intro m m2 h
    exact Outcome.noConfusion h
  · intro m m2 h
    exact Outcome.noConfusion h

/-- Witness for claim C4 at a concrete mocked analysis with no roles. -/
theorem claim4_witness :
    run_pipeline_app (fun _ => .ok ⟨["o"], ["f"], ["g"], []⟩)
        (fun _ => .error .validation) (fun _ => none) (fun _ => none)
        "Renewable Energy" "visual"
      = (.noRoles "No emerging roles were identified. Cannot generate a learning path.",
         ⟨["Renewable Energy"], []⟩) :=
  (claim4_empty_roles_halts (fun _ => .ok ⟨["o"], ["f"], ["g"], []⟩)
    (fun _ => .error .validation) (fun _ => none) (fun _ => none)
    "Renewable Energy" "visual" ⟨["o"], ["f"], ["g"], []⟩ rfl rfl).1

/-- Claim C7: for every DomainAnalysis with a non-empty emerging_roles
sequence, the skills passed to the learning-path generation are exactly the
required_skills of the role at index 0, regardless of how many further
roles the analysis contains; the chain then receives them comma-joined. -/
theorem claim7_first_role_skills
    (analysisChain : String → Except GenError DomainAnalysis)
    (pathChain : PathChainInput → Except GenError LearningPath)
    (sv sa : String → Option String) (domain style : String)
    (analysis : DomainAnalysis) (role : EmergingRole) (rest : List EmergingRole)
    (h1 : analysisChain domain = .ok analysis)
    (h2 : analysis.emerging_roles = role :: rest) :
    (run_pipeline_app analysisChain pathChain sv sa domain style).2.buildPathCalls
      = [(domain, role.required_skills, style)]
    ∧ get_learning_path pathChain domain role.required_skills style
      = pathChain ⟨domain, joinComma role.required_skills, style⟩ := by
  constructor
  · rcases h3 : get_learning_path pathChain domain role.required_skills style with e | lp <;>
      simp [run_pipeline_app, h1, h2, h3]
  · rfl

/-- Witness for claim C7: a two-role analysis; only the first role's skills
reach the generation call. -/
theorem claim7_witness :
    (run_pipeline_app
        (fun _ => .ok ⟨[], [], [],
          [⟨"Solar Engineer", "d", ["solar panel design", "grid storage"]⟩,
           ⟨"Wind Analyst", "d", ["turbines"]⟩]⟩)
        (fun _ => .ok ⟨[]⟩) (fun _ => none) (fun _ => none)
        "Renewable Energy" "visual").2.buildPathCalls
      = [("Renewable Energy", ["solar panel design", "grid storage"], "visual")] :=
  (claim7_first_role_skills
    (fun _ => .ok ⟨[], [], [],
      [⟨"Solar Engineer", "d", ["solar panel design", "grid storage"]⟩,
       ⟨"Wind Analyst", "d", ["turbines"]⟩]⟩)
    (fun _ => .ok ⟨[]⟩) (fun _ => none) (fun _ => none) "Renewable Energy" "visual"
    ⟨[], [], [],
      [⟨"Solar Engineer", "d", ["solar panel design", "grid storage"]⟩,
       ⟨"Wind Analyst", "d", ["turbines"]⟩]⟩
    ⟨"Solar Engineer", "d", ["solar panel design", "grid storage"]⟩
    [⟨"Wind Analyst", "d", ["turbines"]⟩] rfl rfl).1

/-- Claim C5: when either structured generation call fails with a
ValidationError, the error propagates out of the generation step to the
pipeline's `except ValidationError` handler: the run produces the fixed
user-facing message suggesting a different input domain, the analysis chain
is invoked exactly once (no retry), and the outcome is not a success and
not the empty-roles outcome. -/
theorem claim5_validation_error_surfaced
    (analysisChain : String → Except GenError DomainAnalysis)
    (pathChain : PathChainInput → Except GenError LearningPath)
    (sv sa : String → Option String) (domain style : String) :
    (analysisChain domain = .error .validation →
      run_pipeline_app analysisChain pathChain sv sa domain style
        = (.validationMessage "🔴 Validation Error: The AI's response did not match the required format. This can happen with very niche domains. Please try a different one.",
           ⟨[domain], []⟩))
    ∧ (∀ analysis role rest,
        analysisChain domain = .ok analysis →
        analysis.emerging_roles = role :: rest →
        pathChain ⟨domain, joinComma role.required_skills, style⟩ = .error .validation →
        run_pipeline_app analysisChain pathChain sv sa domain style
          = (.validationMessage "🔴 Validation Error: The AI's response did not match the required format. This can happen with very niche domains. Please try a different one.",
             ⟨[domain], [(domain, role.required_skills, style)]⟩))
    ∧ (∀ m a st, Outcome.validationMessage m ≠ Outcome.success a st)
    ∧ (∀ m m2, Outcome.validationMessage m ≠ Outcome.noRoles m2) := by
  refine ⟨?_, ?_, ?_, ?_⟩
  · intro h
    simp [run_pipeline_app, h, except_outcome]
  · intro analysis role rest h1 h2 h3
    simp [run_pipeline_app, h1, h2, get_learning_path, h3, except_outcome]
  · intro m a st h
    exact Outcome.noConfusion h
  · intro m m2 h
    exact Outcome.noConfusion h

/-- Witness for claim C5: both generation steps failing with a
ValidationError at concrete inputs, each surfaced as the fixed message. -/
theorem claim5_witness :
    run_pipeline_app (fun _ => .error .validation) (fun _ => .ok ⟨[]⟩)
        (fun _ => none) (fun _ => none) "Underwater Basket Weaving" "reading"
      = (.validationMessage "🔴 Validation Error: The AI's response did not match the required format. This can happen with very niche domains. Please try a different one.",
         ⟨["Underwater Basket Weaving"], []⟩)
    ∧ run_pipeline_app (fun _ => .ok ⟨[], [], [], [⟨"r", "d", ["s1"]⟩]⟩)
        (fun _ => .error .validation) (fun _ => none) (fun _ => none)
        "Underwater Basket Weaving" "reading"
      = (.validationMessage "🔴 Validation Error: The AI's response did not match the required format. This can happen with very niche domains. Please try a different one.",
         ⟨["Underwater Basket Weaving"], [("Underwater Basket Weaving", ["s1"], "reading")]⟩) :=
  ⟨(claim5_validation_error_surfaced (fun _ => .error .validation) (fun _ => .ok ⟨[]⟩)
      (fun _ => none) (fun _ => none) "Underwater Basket Weaving" "reading").1 rfl,
   (claim5_validation_error_surfaced (fun _ => .ok ⟨[], [], [], [⟨"r", "d", ["s1"]⟩]⟩)
      (fun _ => .error .validation) (fun _ => none) (fun _ => none)
      "Underwater Basket Weaving" "reading").2.1
     ⟨[], [], [], [⟨"r", "d", ["s1"]⟩]⟩ ⟨"r", "d", ["s1"]⟩ [] rfl rfl rfl⟩

/-- Claim C10: when the first emerging role's required_skills sequence is
empty, the pipeline still invokes learning-path generation, the chain
receiving the skills rendered as the empty comma-joined string, and the run
does not halt in the empty-roles outcome. -/
theorem claim10_empty_skills_proceeds
    (analysisChain : String → Except GenError DomainAnalysis)
    (pathChain : PathChainInput → Except GenError LearningPath)
    (sv sa : String → Option String) (domain style : String)
    (analysis : DomainAnalysis) (role : EmergingRole) (rest : List EmergingRole)
    (h1 : analysisChain domain = .ok analysis)
    (h2 : analysis.emerging_roles = role :: rest)
    (h3 : role.required_skills = []) :
    (run_pipeline_app analysisChain pathChain sv sa domain style).2.buildPathCalls
      = [(domain, [], style)]
    ∧ get_learning_path pathChain domain [] style = pathChain ⟨domain, "", style⟩
    ∧ joinComma [] = ""
    ∧ (∀ m, (run_pipeline_app analysisChain pathChain sv sa domain style).1
        ≠ Outcome.noRoles m) := by
  have hj : joinComma ([] : List String) = "" := by decide
  refine ⟨?_, ?_, hj, ?_⟩
  · rcases h4 : get_learning_path pathChain domain [] style with e | lp <;>
      simp [run_pipeline_app, h1, h2, h3, h4]
  · show pathChain ⟨domain, joinComma [], style⟩ = pathChain ⟨domain, "", style⟩
    rw [hj]
  · intro m
    rcases h4 : get_learning_path pathChain domain [] style with e | lp
    · rcases e with _ | msg <;> simp [run_pipeline_app, h1, h2, h3, h4, except_outcome]
    · simp [run_pipeline_app, h1, h2, h3, h4]

/-- Witness for claim C10: a concrete role with no skills still reaches the
generation call with the empty joined skills string. -/
theorem claim10_witness :
    (run_pipeline_app (fun _ => .ok ⟨[], [], [], [⟨"r", "d", []⟩]⟩)
        (fun _ => .ok ⟨[]⟩) (fun _ => none) (fun _ => none)
        "Renewable Energy" "practical").2.buildPathCalls
      = [("Renewable Energy", [], "practical")] :=
  (claim10_empty_skills_proceeds (fun _ => .ok ⟨[], [], [], [⟨"r", "d", []⟩]⟩)
    (fun _ => .ok ⟨[]⟩) (fun _ => none) (fun _ => none) "Renewable Energy" "practical"
    ⟨[], [], [], [⟨"r", "d", []⟩]⟩ ⟨"r", "d", []⟩ [] rfl rfl rfl).1

/-! ### Claims about the resolvers -/

/-- Claim C1 counterexample: in the Prototype.py variant, a provider error
makes the video resolver return a fixed descriptive string, not `None`. -/
theorem claim1_counterexample :
    search_youtube_video_proto (fun _ => .error "quota exceeded") "solar panel design"
      = .ok (some "Could not fetch video link due to an API error.")
    ∧ search_youtube_video_proto (fun _ => .error "quota exceeded") "solar panel design"
      ≠ .ok none := by
  refine ⟨rfl, by simp [search_youtube_video_proto]⟩

/-- Claim C1 (amended): on provider error or no result, neither variant
propagates the provider's exception (every run returns `Except.ok`); the
app.py resolvers return `None`, while the Prototype.py resolvers return a
fixed descriptive failure string, never `None`. -/
theorem claim1_resolver_degrades
    (ytp : YoutubeSearchRequest → Except String (List String))
    (wsp : WebSearchRequest → Except String (List String))
    (q d e : String) :
    (∃ v, search_youtube_video_app ytp q d = .ok v)
    ∧ (ytp (app_youtube_request q d) = .error e →
        search_youtube_video_app ytp q d = .ok none)
    ∧ (ytp (app_youtube_request q d) = .ok [] →
        search_youtube_video_app ytp q d = .ok none)
    ∧ (∃ v, search_for_article_app wsp q d = .ok v)
    ∧ (wsp (app_web_request q d) = .error e →
        search_for_article_app wsp q d = .ok none)
    ∧ (wsp (app_web_request q d) = .ok [] →
        search_for_article_app wsp q d = .ok none)
    ∧ (∃ v, search_youtube_video_proto ytp q = .ok (some v))
    ∧ (ytp (proto_youtube_request q) = .error e →
        search_youtube_video_proto ytp q
          = .ok (some "Could not fetch video link due to an API error."))
    ∧ (ytp (proto_youtube_request q) = .ok [] →
        search_youtube_video_proto ytp q = .ok (some "No relevant video found."))
    ∧ (∃ v, search_for_article_proto wsp q = .ok (some v))
    ∧ (wsp (proto_web_request q) = .error e →
        search_for_article_proto wsp q
          = .ok (some "Could not fetch article link due to a search error."))
    ∧ (wsp (proto_web_request q) = .ok [] →
        search_for_article_proto wsp q = .ok (some "No relevant article found.")) := by
  refine ⟨?_, ?_, ?_, ?_, ?_, ?_, ?_, ?_, ?_, ?_, ?_, ?_⟩
  · rcases h : ytp (app_youtube_request q d) with e2 | items
    · exact ⟨none, by simp [search_youtube_video_app, h]⟩
    · rcases items with _ | ⟨a, t⟩
      · exact ⟨none, by simp [search_youtube_video_app, h]⟩
      · exact ⟨some (youtube_watch_url a), by simp [search_youtube_video_app, h]⟩
  · intro h
    simp [search_youtube_video_app, h]
  · intro h
    simp [search_youtube_video_app, h]
  · rcases h : wsp (app_web_request q d) with e2 | urls
    · exact ⟨none, by simp [search_for_article_app, h]⟩
    · exact ⟨urls.head?, by simp [search_for_article_app, h]⟩
  · intro h
    simp [search_for_article_app, h]
  · intro h
    simp [search_for_article_app, h]
  · rcases h : ytp (proto_youtube_request q) with e2 | items
    · exact ⟨"Could not fetch video link due to an API error.",
        by simp [search_youtube_video_proto, h]⟩
    · rcases items with _ | ⟨a, t⟩
      · exact ⟨"No relevant video found.", by simp [search_youtube_video_proto, h]⟩
      · exact ⟨youtube_watch_url a, by simp [search_youtube_video_proto, h]⟩
  · intro h
    simp [search_youtube_video_proto, h]
  · intro h
    simp [search_youtube_video_proto, h]
  · rcases h : wsp (proto_web_request q) with e2 | urls
    · exact ⟨"Could not fetch article link due to a search error.",
        by simp [search_for_article_proto, h]⟩
    · exact ⟨urls.headD "No relevant article found.", by simp [search_for_article_proto, h]⟩
  · intro h
    simp [search_for_article_proto, h]
  · intro h
    simp [search_for_article_proto, h]

/-- Witness for claim C1 (amended) at a concrete always-erroring provider. -/
theorem claim1_witness :
    search_youtube_video_app (fun _ => .error "boom") "grid storage" "Renewable Energy"
      = .ok none
    ∧ search_for_article_app (fun _ => .error "boom") "grid storage" "Renewable Energy"
      = .ok none
    ∧ search_youtube_video_proto (fun _ => .error "boom") "grid storage"
      = .ok (some "Could not fetch video link due to an API error.")
    ∧ search_for_article_proto (fun _ => .error "boom") "grid storage"
      = .ok (some "Could not fetch article link due to a search error.") := by
  obtain ⟨h1, h2, h3, h4, h5, h6, h7, h8, h9, h10, h11, h12⟩ :=
    claim1_resolver_degrades (fun _ => .error "boom") (fun _ => .error "boom")
      "grid storage" "Renewable Energy" "boom"
  exact ⟨h2 rfl, h5 rfl, h8 rfl, h11 rfl⟩

/-- Claim C6 counterexample: the app.py video query places the context
before the topic, not after it, and the Prototype.py video query contains
no context at all. -/
theorem claim6_counterexample :
    (app_youtube_request "solar panel design" "Renewable Energy").q
      = "Renewable Energy solar panel design tutorial"
    ∧ (app_youtube_request "solar panel design" "Renewable Energy").q
      ≠ "solar panel design" ++ "Renewable Energy" ++ " tutorial"
    ∧ (app_youtube_request "solar panel design" "Renewable Energy").q
      ≠ "solar panel design Renewable Energy tutorial"
    ∧ (proto_youtube_request "solar panel design").q = "solar panel design tutorial" := by
  refine ⟨rfl, by decide, by decide, rfl⟩

/-- Claim C6 (amended): the video resolution queries the provider with
`context ++ " " ++ topic ++ " tutorial"` in the app.py variant and with
`topic ++ " tutorial"` (no context) in the Prototype.py variant; both
request exactly one result restricted to video media with the
high-definition quality filter, and on a result return the canonical URL
built from the provider's first result identifier. -/
theorem claim6_video_request_shape
    (ytp : YoutubeSearchRequest → Except String (List String))
    (q d vid : String) (rest : List String) :
    app_youtube_request q d
      = ⟨d ++ " " ++ q ++ " tutorial", "snippet", 1, "video", "high"⟩
    ∧ proto_youtube_request q
      = ⟨q ++ " tutorial", "snippet", 1, "video", "high"⟩
    ∧ (ytp (app_youtube_request q d) = .ok (vid :: rest) →
        search_youtube_video_app ytp q d
          = .ok (some ("https://www.youtube.com/watch?v=" ++ vid)))
    ∧ (ytp (proto_youtube_request q) = .ok (vid :: rest) →
        search_youtube_video_proto ytp q
          = .ok (some ("https://www.youtube.com/watch?v=" ++ vid))) := by
  refine ⟨rfl, rfl, ?_, ?_⟩
  · intro h
    simp [search_youtube_video_app, h, youtube_watch_url]
  · intro h
    simp [search_youtube_video_proto, h, youtube_watch_url]

/-- Witness for claim C6 (amended) at a provider returning one result. -/
theorem claim6_witness :
    search_youtube_video_app (fun _ => .ok ["abc123"]) "solar panel design"
        "Renewable Energy"
      = .ok (some "https://www.youtube.com/watch?v=abc123") :=
  (claim6_video_request_shape (fun _ => .ok ["abc123"]) "solar panel design"
    "Renewable Energy" "abc123" []).2.2.1 rfl

/-! ### Claims about schema validation -/

/-- Claim C8 counterexample: a LearningPath response whose step type is
"podcast" — not one of video, reading, project — passes schema validation
and is returned to the pipeline. -/
theorem claim8_counterexample :
    validate_learning_path
        (.jobj [("path", .jarr [.jobj [("step", .jnum 1), ("title", .jstr "Listen"),
          ("type", .jstr "podcast"), ("content", .jstr "intro episode")]])])
      = .ok ⟨[⟨1, "Listen", "podcast", "intro episode"⟩]⟩ := by
  rfl

/-- Claim C8 (amended): the LearningStep schema constrains `type` only to be
a string — every string value passes validation (the enum appears only in
the field's prose description) — while a missing `type` field or a
non-string one still fails validation. -/
theorem claim8_type_field_unconstrained (n : Int) (t ty c : String) :
    validate_learning_step (.jobj [("step", .jnum n), ("title", .jstr t),
        ("type", .jstr ty), ("content", .jstr c)])
      = .ok ⟨n, t, ty, c⟩
    ∧ validate_learning_step (.jobj [("step", .jnum n), ("title", .jstr t),
        ("content", .jstr c)])
      = .error "Field required"
    ∧ validate_learning_step (.jobj [("step", .jnum n), ("title", .jstr t),
        ("type", .jnum 3), ("content", .jstr c)])
      = .error "Input should be a valid string" := by
  refine ⟨rfl, rfl, rfl⟩
